import Mathlib

/-!
Shallow embedding of the rustray ray tracer (MarkZuber/rustray).

The `f64` arithmetic of the source is modelled as exact rational arithmetic;
the transcendental operations (`sqrt`, `cos`, `sin`, `powf`) have no exact
rational counterpart, so they are abstracted as a bundle of function
parameters (`FloatOps`) that every theorem quantifies over.  Machine
integers (`u32` ids, pixel coordinates) are modelled as `Nat`; none of the
verified properties involve overflow.
-/

namespace RustRay

/-- Abstraction of the `f64` transcendental operations used by the source.
Every theorem below holds for an arbitrary interpretation of these. -/
structure FloatOps where
  sqrt : ℚ → ℚ
  cos : ℚ → ℚ
  sin : ℚ → ℚ
  powf : ℚ → ℚ → ℚ

/-- Mirrors `PosVector` from src/rustraylib/src/posvector.rs. -/
structure PosVector where
  x : ℚ
  y : ℚ
  z : ℚ
deriving DecidableEq

namespace PosVector

def new (x y z : ℚ) : PosVector := ⟨x, y, z⟩

def new_default : PosVector := new 0 0 0

def new_unit_x : PosVector := new 1 0 0

def new_unit_y : PosVector := new 0 1 0

def new_unit_z : PosVector := new 0 0 1

def subtract (v other : PosVector) : PosVector :=
  ⟨v.x - other.x, v.y - other.y, v.z - other.z⟩

def cross (v other : PosVector) : PosVector :=
  ⟨v.y * other.z - v.z * other.y,
   v.z * other.x - v.x * other.z,
   v.x * other.y - v.y * other.x⟩

def dot_product (v other : PosVector) : ℚ :=
  (v.x * other.x) + (v.y * other.y) + (v.z * other.z)

def magnitude_squared (v : PosVector) : ℚ :=
  (v.x * v.x) + (v.y * v.y) + (v.z * v.z)

def magnitude (F : FloatOps) (v : PosVector) : ℚ :=
  F.sqrt v.magnitude_squared

def divide_by_scalar (v : PosVector) (scalar : ℚ) : PosVector :=
  ⟨v.x / scalar, v.y / scalar, v.z / scalar⟩

def multiply_by_scalar (v : PosVector) (scalar : ℚ) : PosVector :=
  ⟨v.x * scalar, v.y * scalar, v.z * scalar⟩

def add_scaled (v other : PosVector) (s : ℚ) : PosVector :=
  ⟨v.x + (s * other.x), v.y + (s * other.y), v.z + (s * other.z)⟩

def normalize (F : FloatOps) (v : PosVector) : PosVector :=
  v.divide_by_scalar (v.magnitude F)

def add (v other : PosVector) : PosVector :=
  ⟨v.x + other.x, v.y + other.y, v.z + other.z⟩

end PosVector

/-- Mirrors `ColorVector` from src/rustraylib/src/color.rs. -/
structure ColorVector where
  r : ℚ
  g : ℚ
  b : ℚ
deriving DecidableEq

namespace ColorVector

def new (r g b : ℚ) : ColorVector := ⟨r, g, b⟩

def clamp_val (val : ℚ) : ℚ :=
  if val < 0 then 0 else if val > 1 then 1 else val

def clamp (c : ColorVector) : ColorVector :=
  ⟨clamp_val c.r, clamp_val c.g, clamp_val c.b⟩

def multiply_by_scalar (c : ColorVector) (scalar : ℚ) : ColorVector :=
  ⟨c.r * scalar, c.g * scalar, c.b * scalar⟩

def add (c other : ColorVector) : ColorVector :=
  ⟨c.r + other.r, c.g + other.g, c.b + other.b⟩

def blend (c : ColorVector) (other : ColorVector) (weight : ℚ) : ColorVector :=
  let temp := c.multiply_by_scalar (1 - weight)
  let temp2 := temp.add (other.multiply_by_scalar (1 - weight))
  temp2

/-- Modelled from the spec: componentwise color product used by the diffuse
term (`hit.color × light.color`).  `ColorVector::multiply` is called by
src/rustraylib/src/tracer.rs but its definition is not present in
src/rustraylib/src/color.rs. -/
def multiply (c other : ColorVector) : ColorVector :=
  ⟨c.r * other.r, c.g * other.g, c.b * other.b⟩

end ColorVector

/-- The conventional linear interpolation `self·(1−w) + other·w`, written
from the spec's words in §4.1 for comparison with the source's `blend`. -/
def blendConventionalLerp (c other : ColorVector) (weight : ℚ) : ColorVector :=
  (c.multiply_by_scalar (1 - weight)).add (other.multiply_by_scalar weight)

/-- Mirrors `Ray` from src/rustraylib/src/camera.rs. -/
structure Ray where
  position : PosVector
  direction : PosVector
deriving DecidableEq

namespace Ray

def new (position direction : PosVector) : Ray := ⟨position, direction⟩

def get_position (r : Ray) : PosVector := r.position

def get_direction (r : Ray) : PosVector := r.direction

end Ray

/-- Mirrors `Camera` from src/rustraylib/src/camera.rs. -/
structure Camera where
  position : PosVector
  look_at : PosVector
  up : PosVector
  fov : ℚ
  a1 : PosVector
  a2 : PosVector
  a3 : PosVector
  dval : ℚ

namespace Camera

def new (F : FloatOps) (position look_at up : PosVector) (fov : ℚ) : Camera :=
  let a3 := look_at.subtract position
  let a1 := a3.cross up
  let a2 := a1.cross a3
  let view_angle_radians := fov * 0.017453239
  let dval : ℚ := F.cos (view_angle_radians / 2) / F.sin (view_angle_radians / 2)
  { position := position
    look_at := look_at
    up := up
    fov := fov
    a1 := a1.normalize F
    a2 := a2.normalize F
    a3 := a3.normalize F
    dval := dval }

def get_position (c : Camera) : PosVector := c.position

def get_ray (F : FloatOps) (c : Camera) (vx vy : ℚ) : Ray :=
  let center := c.a3.multiply_by_scalar c.dval
  let dir := (center.add (c.a1.multiply_by_scalar vx)).add (c.a2.multiply_by_scalar vy)
  { position := c.position, direction := dir.normalize F }

end Camera

/-- Mirrors the `Material` trait from src/rustraylib/src/material.rs: the
dynamic-dispatch capability set is embedded as a record of its methods. -/
structure Material where
  get_color : ℚ → ℚ → ColorVector
  has_texture : Bool
  get_gloss : ℚ
  get_reflection : ℚ
  get_refraction : ℚ
  get_transparency : ℚ

/-- Mirrors `BaseMaterial` from src/rustraylib/src/material.rs. -/
structure BaseMaterial where
  gloss : ℚ
  reflection : ℚ
  refraction : ℚ
  transparency : ℚ
deriving DecidableEq

/-- Mirrors `SolidMaterial` from src/rustraylib/src/material.rs. -/
structure SolidMaterial where
  material : BaseMaterial
  color : ColorVector
deriving DecidableEq

namespace SolidMaterial

def new (gloss reflection refraction transparency : ℚ) (color : ColorVector) :
    SolidMaterial :=
  { material :=
      { gloss := gloss
        reflection := reflection
        refraction := refraction
        transparency := transparency }
    color := color }

/-- Mirrors `impl Material for SolidMaterial`. -/
def toMaterial (m : SolidMaterial) : Material :=
  { get_color := fun _u _v => m.color
    has_texture := false
    get_gloss := m.material.gloss
    get_reflection := m.material.reflection
    get_refraction := m.material.refraction
    get_transparency := m.material.transparency }

end SolidMaterial

/-- Mirrors `ChessboardMaterial` from src/rustraylib/src/material.rs. -/
structure ChessboardMaterial where
  material : BaseMaterial
  color_even : ColorVector
  color_odd : ColorVector
  scale : ℚ
deriving DecidableEq

/-- Truncation toward zero, the rounding mode of Rust's `%` on `f64`. -/
def qtrunc (q : ℚ) : ℤ :=
  if q < 0 then -(Int.floor (-q)) else Int.floor q

/-- Remainder with the sign of the dividend: the semantics of `t % scale`
on `f64` in Rust, used by `ChessboardMaterial::wrap_up_scale`. -/
def fmod (t s : ℚ) : ℚ :=
  t - s * (qtrunc (t / s) : ℚ)

namespace ChessboardMaterial

def wrap_up_scale (t scale : ℚ) : ℚ :=
  let x := fmod t scale
  let x := if x < -scale / 2 then x + scale else x
  let x := if x ≥ scale / 2 then x - scale else x
  x

/-- Mirrors `impl Material for ChessboardMaterial`. -/
def toMaterial (m : ChessboardMaterial) : Material :=
  { get_color := fun u v =>
      let t := wrap_up_scale u m.scale * wrap_up_scale v m.scale
      if t < 0 then m.color_even else m.color_odd
    has_texture := true
    get_gloss := m.material.gloss
    get_reflection := m.material.reflection
    get_refraction := m.material.refraction
    get_transparency := m.material.transparency }

end ChessboardMaterial

/-- Mirrors `IntersectionInfo` from src/rustraylib/src/tracer.rs. -/
structure IntersectionInfo where
  color : ColorVector
  distance : ℚ
  element_id : ℕ
  is_hit : Bool
  normal : PosVector
  position : PosVector
deriving DecidableEq

namespace IntersectionInfo

def new_default : IntersectionInfo :=
  { color := ColorVector.new 0 0 0
    distance := 100000000000
    element_id := 0
    is_hit := false
    normal := PosVector.new_default
    position := PosVector.new_default }

def new (color : ColorVector) (distance : ℚ) (normal position : PosVector) :
    IntersectionInfo :=
  { color := color
    distance := distance
    element_id := 0
    is_hit := true
    normal := normal
    position := position }

end IntersectionInfo

/-- Mirrors `Bound` from src/rustraylib/src/shapes.rs. -/
structure Bound where
  min : ℚ
  max : ℚ
deriving DecidableEq

def Bound.new (min max : ℚ) : Bound := ⟨min, max⟩

/-- Mirrors `BoundingBox` from src/rustraylib/src/shapes.rs: `boxmin` is the
lower corner (min value for all coords), `boxmax` the upper corner. -/
structure BoundingBox where
  boxmin : PosVector
  boxmax : PosVector
deriving DecidableEq

namespace BoundingBox

def new (bounding_x bounding_y bounding_z : Bound) : BoundingBox :=
  { boxmin := PosVector.new bounding_x.min bounding_y.min bounding_z.min
    boxmax := PosVector.new bounding_x.max bounding_y.max bounding_z.max }

/-- Mirrors `BoundingBox::from_shape`, with the shape's trait-dispatched
`calculate_bounding_planes` passed as a function. -/
def from_shape (calculate_bounding_planes : PosVector → Bound) : BoundingBox :=
  BoundingBox.new
    (calculate_bounding_planes PosVector.new_unit_x)
    (calculate_bounding_planes PosVector.new_unit_y)
    (calculate_bounding_planes PosVector.new_unit_z)

def is_well_formed (b : BoundingBox) : Prop :=
  b.boxmin.x ≤ b.boxmax.x ∧ b.boxmin.y ≤ b.boxmax.y ∧ b.boxmin.z ≤ b.boxmax.z

instance (b : BoundingBox) : Decidable b.is_well_formed := by
  unfold is_well_formed; infer_instance

end BoundingBox

/-- Mirrors `SphereShape` from src/rustraylib/src/shapes.rs. -/
structure SphereShape where
  position : PosVector
  radius : ℚ
  material : Material
  id : ℕ

namespace SphereShape

def get_position (s : SphereShape) : PosVector := s.position

/-- Mirrors `SphereShape::intersect` from src/rustraylib/src/shapes.rs. -/
def intersect (F : FloatOps) (s : SphereShape) (ray : Ray) : IntersectionInfo :=
  let dst := ray.get_position.subtract s.position
  let b := dst.dot_product ray.get_direction
  let c := dst.dot_product dst - (s.radius * s.radius)
  let d := b * b - c
  if d > 0 then
    let distance := -b - F.sqrt d
    let position := ray.get_position.add (ray.get_direction.multiply_by_scalar distance)
    let normal := (position.subtract s.position).normalize F
    let color := s.material.get_color 0 0
    IntersectionInfo.new color distance normal position
  else
    IntersectionInfo.new_default

def get_material (s : SphereShape) : Material := s.material

/-- Mirrors `SphereShape::calculate_bounding_planes` from
src/rustraylib/src/shapes.rs, arguments to `Bound::new` exactly as written
there. -/
def calculate_bounding_planes (s : SphereShape) (unit_vec : PosVector) : Bound :=
  let cd := unit_vec.dot_product s.position
  Bound.new (cd + s.radius) (cd - s.radius)

end SphereShape

/-- Mirrors `PlaneShape` from src/rustraylib/src/shapes.rs. -/
structure PlaneShape where
  position : PosVector
  d_val : ℚ
  material : Material
  id : ℕ

namespace PlaneShape

def get_position (p : PlaneShape) : PosVector := p.position

/-- Mirrors `PlaneShape::intersect` from src/rustraylib/src/shapes.rs; the
plane routine uses no transcendental operation, so `_F` is unused. -/
def intersect (_F : FloatOps) (p : PlaneShape) (ray : Ray) : IntersectionInfo :=
  let vd := p.position.dot_product ray.get_direction
  if vd ≥ 0 then
    IntersectionInfo.new_default
  else
    let t := -(p.position.dot_product ray.get_position + p.d_val) / vd
    if t ≤ 0 then
      IntersectionInfo.new_default
    else
      let intersect_position :=
        ray.get_position.add (ray.get_direction.multiply_by_scalar t)
      let color := p.material.get_color 0 0
      let color :=
        if p.material.has_texture then
          let vec_u := PosVector.new p.position.y p.position.z (-p.position.x)
          let vec_v := vec_u.cross p.position
          let u := intersect_position.dot_product vec_u
          let v := intersect_position.dot_product vec_v
          p.material.get_color u v
        else color
      IntersectionInfo.new color t p.position intersect_position

def get_material (p : PlaneShape) : Material := p.material

def calculate_bounding_planes (_p : PlaneShape) (_unit_vec : PosVector) : Bound :=
  Bound.new 1 1

end PlaneShape

/-- Mirrors `PointLight` from src/rustraylib/src/light.rs. -/
structure PointLight where
  position : PosVector
  color : ColorVector
deriving DecidableEq

def PointLight.new (position : PosVector) (color : ColorVector) : PointLight :=
  ⟨position, color⟩

/-- Mirrors `Background` from src/rustraylib/src/scene.rs. -/
structure Background where
  color : ColorVector
  ambience : ℚ
deriving DecidableEq

def Background.new (color : ColorVector) (ambience : ℚ) : Background :=
  ⟨color, ambience⟩

/-- Modelled from the spec: `CompiledShape` belongs to the compiled-scene
module imported by src/rustraylib/src/tracer.rs but absent from src/.  Per
the spec's Shape capability set (§3) it exposes a unique integer id, a
position, an associated material and `intersect(ray)`; dynamic dispatch is
embedded as a function field. -/
structure CompiledShape where
  id : ℕ
  position : PosVector
  material : Material
  intersect : Ray → IntersectionInfo

namespace CompiledShape

def get_id (s : CompiledShape) : ℕ := s.id

def get_position (s : CompiledShape) : PosVector := s.position

def get_material (s : CompiledShape) : Material := s.material

end CompiledShape

/-- Modelled from the spec: `CompiledLight` (point light: position + color,
§3) belongs to the compiled-scene module absent from src/. -/
structure CompiledLight where
  position : PosVector
  color : ColorVector

namespace CompiledLight

def get_position (l : CompiledLight) : PosVector := l.position

def get_color (l : CompiledLight) : ColorVector := l.color

end CompiledLight

/-- Modelled from the spec: the compiled `Scene` used by
src/rustraylib/src/tracer.rs is absent from src/.  Per §3/§4.4 it holds the
background plus shapes and lights stored in an id-keyed index; the index is
embedded as an association list, preserving the iteration order used by the
tracer's linear scan. -/
structure Scene where
  background : Background
  shapes : List (ℕ × CompiledShape)
  lights : List (ℕ × CompiledLight)

/-- Modelled from the spec: O(1)-by-id lookup in the id-keyed shape index. -/
def Scene.get_shape (s : Scene) (id : ℕ) : Option CompiledShape :=
  s.shapes.lookup id

/-- Mirrors `RenderData` from src/rustraylib/src/renderer.rs. -/
structure RenderData where
  width : ℕ
  height : ℕ
  ray_trace_depth : ℕ
  num_threads : ℕ
  thread_per_line : Bool
  render_diffuse : Bool
  render_reflection : Bool
  render_refraction : Bool
  render_shadow : Bool
  render_highlights : Bool

def RenderData.new (width height ray_trace_depth num_threads : ℕ)
    (thread_per_line : Bool) : RenderData :=
  { width := width
    height := height
    ray_trace_depth := ray_trace_depth
    num_threads := num_threads
    thread_per_line := thread_per_line
    render_diffuse := true
    render_reflection := true
    render_refraction := true
    render_shadow := true
    render_highlights := true }

/-- Mirrors `RayTracer` from src/rustraylib/src/tracer.rs (the statistics
counter, unused by the shading math, is omitted). -/
structure RayTracer where
  camera : Camera
  render_data : RenderData
  scene : Scene
  use_kd_tree : Bool

namespace RayTracer

def new (camera : Camera) (render_data : RenderData) (scene : Scene) : RayTracer :=
  { camera := camera
    render_data := render_data
    scene := scene
    use_kd_tree := false }

/-- Mirrors `RayTracer::get_reflection_ray`. -/
def get_reflection_ray (_rt : RayTracer) (p n v : PosVector) : Ray :=
  let c1 := -(n.dot_product v)
  let rl := v.add ((n.multiply_by_scalar 2).multiply_by_scalar c1)
  Ray.new p rl

/-- Mirrors `RayTracer::get_refraction_ray`. -/
def get_refraction_ray (F : FloatOps) (_rt : RayTracer) (p n v : PosVector)
    (refraction : ℚ) : Ray :=
  let c1 := n.dot_product v
  let c2 := 1 - refraction * refraction * F.sqrt (1 - c1 * c1)
  let t :=
    (((n.multiply_by_scalar (refraction * c1 - c2)).subtract
        (v.multiply_by_scalar refraction)).multiply_by_scalar (-1)).normalize F
  Ray.new p t

/-- Loop body of the scan in `RayTracer::test_intersection_basic`. -/
def scan_step (ray : Ray) (exclude_id : ℕ) (best_info : IntersectionInfo)
    (p : ℕ × CompiledShape) : IntersectionInfo :=
  if p.2.get_id ≠ exclude_id then
    let info := p.2.intersect ray
    if info.is_hit ∧ info.distance < best_info.distance ∧ info.distance ≥ 0 then
      info
    else best_info
  else best_info

/-- Mirrors `RayTracer::test_intersection_basic`. -/
def test_intersection_basic (rt : RayTracer) (ray : Ray) (exclude_id : ℕ) :
    IntersectionInfo :=
  rt.scene.shapes.foldl (scan_step ray exclude_id) IntersectionInfo.new_default

/-- Mirrors `RayTracer::test_intersection_kd` (a stub in the source). -/
def test_intersection_kd (_rt : RayTracer) (_ray : Ray) (_exclude_id : ℕ) :
    IntersectionInfo :=
  IntersectionInfo.new_default

/-- Mirrors `RayTracer::test_intersection`. -/
def test_intersection (rt : RayTracer) (ray : Ray) (exclude_id : ℕ) :
    IntersectionInfo :=
  if rt.use_kd_tree then rt.test_intersection_kd ray exclude_id
  else rt.test_intersection_basic ray exclude_id

/-- Mirrors `RayTracer::render_diffuse`. -/
def render_diffuse (F : FloatOps) (rt : RayTracer) (current_color : ColorVector)
    (intersection_info : IntersectionInfo) (light : CompiledLight) : ColorVector :=
  if rt.render_data.render_diffuse then
    let v := (light.get_position.subtract intersection_info.position).normalize F
    let l := v.dot_product intersection_info.normal
    if l > 0 then
      current_color.add
        ((intersection_info.color.multiply light.get_color).multiply_by_scalar l)
    else current_color
  else current_color

/-- Mirrors `RayTracer::render_reflection`; the recursive call back into
`ray_trace` is abstracted as `recurse` so that the bounded recursion can be
tied off explicitly below (the mirror-ray construction itself uses no
transcendental operation, so `_F` is unused). -/
def render_reflection (_F : FloatOps) (rt : RayTracer)
    (recurse : IntersectionInfo → Ray → ℕ → ColorVector)
    (current_color : ColorVector) (intersection_info : IntersectionInfo)
    (ray : Ray) (depth : ℕ) : ColorVector :=
  if rt.render_data.render_reflection then
    match rt.scene.get_shape intersection_info.element_id with
    | none => current_color
    | some elem =>
      if elem.get_material.get_reflection > 0 then
        let reflection_ray :=
          rt.get_reflection_ray intersection_info.position intersection_info.normal
            ray.get_direction
        let refl := rt.test_intersection reflection_ray elem.get_id
        let refl :=
          if refl.is_hit ∧ refl.distance > 0 then
            { refl with color := recurse refl reflection_ray (depth + 1) }
          else
            { refl with color := rt.scene.background.color }
        current_color.blend refl.color elem.get_material.get_reflection
      else current_color
  else current_color

/-- Mirrors `RayTracer::render_refraction`; recursion abstracted as in
`render_reflection`. -/
def render_refraction (F : FloatOps) (rt : RayTracer)
    (recurse : IntersectionInfo → Ray → ℕ → ColorVector)
    (current_color : ColorVector) (intersection_info : IntersectionInfo)
    (ray : Ray) (depth : ℕ) : ColorVector :=
  if rt.render_data.render_refraction then
    match rt.scene.get_shape intersection_info.element_id with
    | none => current_color
    | some elem =>
      if elem.get_material.get_transparency > 0 then
        let refraction_ray :=
          get_refraction_ray F rt intersection_info.position intersection_info.normal
            ray.get_direction elem.get_material.get_refraction
        let refr := elem.intersect refraction_ray
        let refr :=
          if refr.is_hit then
            match rt.scene.get_shape refr.element_id with
            | none => refr
            | some refrelem =>
              let element_refraction_ray :=
                get_refraction_ray F rt refr.position refr.normal
                  refraction_ray.get_direction refrelem.get_material.get_refraction
              let refr := rt.test_intersection element_refraction_ray elem.get_id
              if refr.is_hit ∧ refr.distance > 0 then
                { refr with color := recurse refr element_refraction_ray (depth + 1) }
              else
                { refr with color := rt.scene.background.color }
          else
            { refr with color := rt.scene.background.color }
        current_color.blend refr.color elem.get_material.get_transparency
      else current_color
  else current_color

/-- Mirrors `RayTracer::render_highlights`. -/
def render_highlights (F : FloatOps) (rt : RayTracer) (current_color : ColorVector)
    (elem : CompiledShape) (shadow_intersection : IntersectionInfo)
    (light : CompiledLight) : ColorVector :=
  if rt.render_data.render_highlights = true ∧ shadow_intersection.is_hit = false ∧
      elem.get_material.get_gloss > 0 then
    let lv := (elem.get_position.subtract light.get_position).normalize F
    let e := (rt.camera.get_position.subtract elem.get_position).normalize F
    let _h := (e.subtract lv).normalize F
    let gloss_weight : ℚ := 0
    current_color.add (light.get_color.multiply_by_scalar gloss_weight)
  else current_color

/-- Mirrors `RayTracer::render_shadow_and_highlights`. -/
def render_shadow_and_highlights (F : FloatOps) (rt : RayTracer)
    (current_color : ColorVector) (intersection_info : IntersectionInfo)
    (light : CompiledLight) : ColorVector :=
  let v := (light.get_position.subtract intersection_info.position).normalize F
  let shadow_ray := Ray.new intersection_info.position v
  match rt.scene.get_shape intersection_info.element_id with
  | none => current_color
  | some elem =>
    let shadow_intersection := rt.test_intersection shadow_ray elem.get_id
    let color :=
      if rt.render_data.render_shadow then
        if shadow_intersection.is_hit then
          match rt.scene.get_shape shadow_intersection.element_id with
          | none => current_color
          | some shadowelem =>
            if shadowelem.get_id ≠ elem.get_id then
              let trans := shadowelem.get_material.get_transparency
              let trans_power := F.powf trans 0.5
              current_color.multiply_by_scalar (0.5 + (0.5 * trans_power))
            else current_color
        else current_color
      else current_color
    render_highlights F rt color elem shadow_intersection light

/-- Per-light loop body of `RayTracer::ray_trace`: diffuse term, then —
guarded by `depth < ray_trace_depth` — reflection, refraction and
shadow/highlights; the two recursive call sites are abstracted as
`recurse`. -/
def ray_trace_light_step (F : FloatOps) (rt : RayTracer)
    (recurse : IntersectionInfo → Ray → ℕ → ColorVector)
    (intersection_info : IntersectionInfo) (ray : Ray) (depth : ℕ)
    (color : ColorVector) (light : ℕ × CompiledLight) : ColorVector :=
  let color := render_diffuse F rt color intersection_info light.2
  if depth < rt.render_data.ray_trace_depth then
    let color := render_reflection F rt recurse color intersection_info ray depth
    let color := render_refraction F rt recurse color intersection_info ray depth
    render_shadow_and_highlights F rt color intersection_info light.2
  else color

/-- Body of `RayTracer::ray_trace` (ambient term plus the per-light fold),
with the two recursive call sites abstracted as `recurse`. -/
def ray_trace_body (F : FloatOps) (rt : RayTracer)
    (recurse : IntersectionInfo → Ray → ℕ → ColorVector)
    (intersection_info : IntersectionInfo) (ray : Ray) (depth : ℕ) : ColorVector :=
  let color0 := intersection_info.color.multiply_by_scalar rt.scene.background.ambience
  rt.scene.lights.foldl
    (ray_trace_light_step F rt recurse intersection_info ray depth) color0

/-- Fuel-indexed unfolding of the recursion in `RayTracer::ray_trace`: out of
fuel, the recursive contribution is stubbed with the background color (a value
never consulted once the fuel covers the remaining depth budget, as proved
below). -/
def rayTraceFuel (F : FloatOps) (rt : RayTracer) :
    ℕ → IntersectionInfo → Ray → ℕ → ColorVector
  | 0 => ray_trace_body F rt (fun _ _ _ => rt.scene.background.color)
  | fuel + 1 => ray_trace_body F rt (rayTraceFuel F rt fuel)

/-- Mirrors `RayTracer::ray_trace`: the recursion is bounded by the depth
budget `ray_trace_depth - depth`, which the fuel argument makes explicit. -/
def ray_trace (F : FloatOps) (rt : RayTracer) (intersection_info : IntersectionInfo)
    (ray : Ray) (depth : ℕ) : ColorVector :=
  rayTraceFuel F rt (rt.render_data.ray_trace_depth - depth) intersection_info ray depth

/-- Mirrors `RayTracer::calculate_color`. -/
def calculate_color (F : FloatOps) (rt : RayTracer) (ray : Ray) : ColorVector :=
  let intersection_info := rt.test_intersection ray 0
  if intersection_info.is_hit then
    ray_trace F rt intersection_info ray 0
  else
    rt.scene.background.color

/-- Mirrors `RayTracer::get_pixel_color`. -/
def get_pixel_color (F : FloatOps) (rt : RayTracer) (x y : ℕ) : ColorVector :=
  let xp := (x : ℚ) / (rt.render_data.width : ℚ) * 2 - 1
  let yp := -((y : ℚ) / (rt.render_data.height : ℚ) * 2 - 1)
  let ray := rt.camera.get_ray F xp yp
  calculate_color F rt ray

end RayTracer

/-- Closed sum of the concrete shape types that
src/rustraylib/src/nffparsing.rs pushes into `Vec<Box<Shape>>`. -/
inductive ShapeItem where
  | sphereItem (s : SphereShape)
  | planeItem (p : PlaneShape)

namespace ShapeItem

def get_id : ShapeItem → ℕ
  | sphereItem s => s.id
  | planeItem p => p.id

/-- Trait-object view of a concrete shape: the compiled scene's capability
record, with `intersect` dispatching to the shape's own routine from
src/rustraylib/src/shapes.rs. -/
def toCompiled (F : FloatOps) : ShapeItem → CompiledShape
  | sphereItem s =>
    { id := s.id
      position := s.position
      material := s.material
      intersect := SphereShape.intersect F s }
  | planeItem p =>
    { id := p.id
      position := p.position
      material := p.material
      intersect := PlaneShape.intersect F p }

end ShapeItem

/-- Instruction-level view of one parsed NFF directive, mirroring the branch
structure of `parse_nff_file` in src/rustraylib/src/nffparsing.rs (the
five-line viewpoint block is one instruction here; string tokenizing is
below the abstraction level of this embedding). -/
inductive NffInstr where
  | backgroundInstr (r g b : ℚ)
  | viewpoint (cam_from cam_at cam_up : PosVector) (angle hither : ℚ)
      (resolution_x resolution_y : ℕ)
  | lightInstr (position : PosVector) (color : Option ColorVector)
  | materialInstr (r g b kd ks shine t index_of_refraction : ℚ)
  | cone
  | sphereInstr (position : PosVector) (radius : ℚ)
  | polygon (n : ℕ)
  | polygonPatch
  | commentInstr

def NffInstr.isSphere : NffInstr → Bool
  | .sphereInstr _ _ => true
  | _ => false

/-- Mutable locals of the `parse_nff_file` loop. -/
structure NffState where
  shapes : List ShapeItem
  lights : List PointLight
  background : Background
  current_material : SolidMaterial
  current_shape_id : ℕ
  camera_from : PosVector
  camera_at : PosVector
  camera_up : PosVector
  resolution_x : ℕ
  resolution_y : ℕ

/-- The hardcoded chessboard material of the bottom plane in
`parse_nff_file`. -/
def nff_chess_mat : ChessboardMaterial :=
  { color_even := ColorVector.new 0.8 0.8 0.8
    color_odd := ColorVector.new 0 0 0
    material :=
      { reflection := 0.2
        transparency := 0
        gloss := 1
        refraction := 0 }
    scale := 15 }

/-- Initial parser state: `parse_nff_file` pushes the hardcoded bottom plane
with `id: 0` before reading any input, and starts `current_shape_id` at 1. -/
def nff_initial_state : NffState :=
  { shapes :=
      [ShapeItem.planeItem
        { position := PosVector.new 0 0 1
          d_val := 0
          material := nff_chess_mat.toMaterial
          id := 0 }]
    lights := []
    background := Background.new (ColorVector.new 0 0 0) 0
    current_material := SolidMaterial.new 0 0 0 0 (ColorVector.new 0 0 0)
    current_shape_id := 1
    camera_from := PosVector.new_default
    camera_at := PosVector.new_default
    camera_up := PosVector.new_default
    resolution_x := 1000
    resolution_y := 1000 }

/-- One iteration of the `parse_nff_file` instruction loop.  The `f`
directive's field-to-property mapping follows the source exactly:
`SolidMaterial::new(vec[6], vec[5], vec[8], vec[7], color(vec[1..3]))`,
i.e. gloss := Shine, reflection := Ks, refraction := index_of_refraction,
transparency := T. -/
def parse_nff_step (st : NffState) : NffInstr → NffState
  | .backgroundInstr r g b =>
    { st with background := Background.new (ColorVector.new r g b) 0 }
  | .viewpoint cam_from cam_at cam_up _angle _hither resolution_x resolution_y =>
    { st with
        camera_from := cam_from
        camera_at := cam_at
        camera_up := cam_up
        resolution_x := resolution_x
        resolution_y := resolution_y }
  | .lightInstr position color =>
    { st with
        lights :=
          st.lights ++ [PointLight.new position (color.getD (ColorVector.new 1 1 1))] }
  | .materialInstr r g b _kd ks shine t index_of_refraction =>
    { st with
        current_material :=
          SolidMaterial.new shine ks index_of_refraction t (ColorVector.new r g b) }
  | .sphereInstr position radius =>
    { st with
        shapes :=
          st.shapes ++
            [ShapeItem.sphereItem
              { position := position
                radius := radius
                material := st.current_material.toMaterial
                id := st.current_shape_id }]
        current_shape_id := st.current_shape_id + 1 }
  | .cone => st
  | .polygon _ => st
  | .polygonPatch => st
  | .commentInstr => st

/-- Mirrors `NffParserResult` from src/rustraylib/src/nffparsing.rs. -/
structure NffParserResult where
  scene : Scene
  render_data : RenderData
  camera : Camera

/-- Mirrors `parse_nff_file` at instruction granularity.  The shape and light
lists are handed over in the id-keyed index form the compiled `Scene` model
uses (lights, which carry no id in the source, are indexed sequentially from
1 as the spec prescribes). -/
def parse_nff_file (F : FloatOps) (num_threads ray_trace_depth : ℕ)
    (instrs : List NffInstr) : NffParserResult :=
  let st := instrs.foldl parse_nff_step nff_initial_state
  { scene :=
      { background := st.background
        shapes := st.shapes.map (fun item => (item.get_id, item.toCompiled F))
        lights :=
          (List.range' 1 st.lights.length).zip
            (st.lights.map (fun l => ⟨l.position, l.color⟩)) }
    render_data :=
      { width := st.resolution_x
        height := st.resolution_y
        ray_trace_depth := ray_trace_depth
        num_threads := num_threads
        thread_per_line := true
        render_diffuse := true
        render_reflection := true
        render_refraction := true
        render_shadow := true
        render_highlights := true }
    camera := Camera.new F st.camera_from st.camera_at st.camera_up 50 }

/-! Concrete inputs used by the evaluation theorems and witnesses below. -/

/-- Interpretation of the transcendental operations by the identity in the
first argument; every general theorem holds for an arbitrary
interpretation, so any concrete choice is good enough for evaluation. -/
def idOps : FloatOps :=
  { sqrt := fun q => q
    cos := fun q => q
    sin := fun q => q
    powf := fun q _ => q }

def demoMaterialRed : Material :=
  (SolidMaterial.new 2 0.2 0 0 (ColorVector.new 0.9 0 0)).toMaterial

def demoSphere : SphereShape :=
  { position := PosVector.new 0 0 0
    radius := 1
    material := demoMaterialRed
    id := 1 }

def demoRayDown : Ray :=
  Ray.new (PosVector.new 0 0 2) (PosVector.new 0 0 (-1))

def demoRaySide : Ray :=
  Ray.new (PosVector.new 0 0 2) (PosVector.new 0 1 0)

/-- The linear coefficient `b = dot(O−C, D)` of the sphere quadratic, as
computed inside `SphereShape::intersect`. -/
def sphere_quadratic_b (s : SphereShape) (ray : Ray) : ℚ :=
  (ray.get_position.subtract s.position).dot_product ray.get_direction

/-- The constant coefficient `c = |O−C|² − r²` of the sphere quadratic, as
computed inside `SphereShape::intersect`. -/
def sphere_quadratic_c (s : SphereShape) (ray : Ray) : ℚ :=
  (ray.get_position.subtract s.position).dot_product
    (ray.get_position.subtract s.position) - s.radius * s.radius

/-- The denominator `vd = dot(normal, D)` of the plane intersection, as
computed inside `PlaneShape::intersect`. -/
def plane_vd (p : PlaneShape) (ray : Ray) : ℚ :=
  p.position.dot_product ray.get_direction

/-- The candidate distance `t = −(dot(normal, O) + offset) / vd`, as computed
inside `PlaneShape::intersect`. -/
def plane_t (p : PlaneShape) (ray : Ray) : ℚ :=
  -(p.position.dot_product ray.get_position + p.d_val) / plane_vd p ray

def demoPlane : PlaneShape :=
  { position := PosVector.new 0 0 1
    d_val := 0
    material := demoMaterialRed
    id := 3 }

def demoPlaneRayHit : Ray :=
  Ray.new (PosVector.new 0 0 5) (PosVector.new 0 0 (-1))

def demoPlaneRayBehind : Ray :=
  Ray.new (PosVector.new 0 0 (-1)) (PosVector.new 0 0 (-1))

def demoPlaneRayAway : Ray :=
  Ray.new (PosVector.new 0 0 5) (PosVector.new 0 0 1)

/-- The selection condition of the scan in `test_intersection_basic`, read
against the initial best distance (the no-hit default):
`isHit && distance < bestDistance && distance ≥ 0 && id != excludeId`. -/
def scan_qualifies (ray : Ray) (exclude_id : ℕ) (p : ℕ × CompiledShape) : Prop :=
  (p.2.intersect ray).is_hit = true ∧
  (p.2.intersect ray).distance < IntersectionInfo.new_default.distance ∧
  (p.2.intersect ray).distance ≥ 0 ∧
  p.2.get_id ≠ exclude_id

instance (ray : Ray) (exclude_id : ℕ) (p : ℕ × CompiledShape) :
    Decidable (scan_qualifies ray exclude_id p) := by
  unfold scan_qualifies; infer_instance

/-- The selection condition without the evolving distance bound: a shape that
hits at a nonnegative distance and is not excluded. -/
def scan_admissible (ray : Ray) (exclude_id : ℕ) (p : ℕ × CompiledShape) : Prop :=
  (p.2.intersect ray).is_hit = true ∧
  (p.2.intersect ray).distance ≥ 0 ∧
  p.2.get_id ≠ exclude_id

instance (ray : Ray) (exclude_id : ℕ) (p : ℕ × CompiledShape) :
    Decidable (scan_admissible ray exclude_id p) := by
  unfold scan_admissible; infer_instance

def demoBackground : Background :=
  Background.new (ColorVector.new 0.1 0.2 0.3) 0.5

def demoCamera : Camera :=
  Camera.new idOps (PosVector.new 0 0 5) (PosVector.new 0 0 0) (PosVector.new 0 1 0) 50

def demoRenderData : RenderData :=
  RenderData.new 10 10 1 1 true

def demoInfoFar : IntersectionInfo :=
  { color := ColorVector.new 1 0 0
    distance := 5
    element_id := 0
    is_hit := true
    normal := PosVector.new 0 0 1
    position := PosVector.new 0 0 0 }

def demoInfoNear : IntersectionInfo :=
  { color := ColorVector.new 0 1 0
    distance := 3
    element_id := 0
    is_hit := true
    normal := PosVector.new 0 0 1
    position := PosVector.new 0 0 0 }

def demoShapeFar : CompiledShape :=
  { id := 1
    position := PosVector.new 0 0 0
    material := demoMaterialRed
    intersect := fun _ => demoInfoFar }

def demoShapeNear : CompiledShape :=
  { id := 2
    position := PosVector.new 0 0 (-2)
    material := demoMaterialRed
    intersect := fun _ => demoInfoNear }

def demoScanScene : Scene :=
  { background := demoBackground
    shapes := [(1, demoShapeFar), (2, demoShapeNear)]
    lights := [] }

def demoScanRt : RayTracer :=
  RayTracer.new demoCamera demoRenderData demoScanScene

def demoEmptyScene : Scene :=
  { background := demoBackground
    shapes := []
    lights := [] }

def demoEmptyRt : RayTracer :=
  RayTracer.new demoCamera demoRenderData demoEmptyScene

def demoNffInstrs : List NffInstr :=
  [NffInstr.sphereInstr (PosVector.new 0 0 10) 1]

def demoNffResult : NffParserResult :=
  parse_nff_file idOps 1 5 demoNffInstrs

def demoNffRt : RayTracer :=
  RayTracer.new demoNffResult.camera demoNffResult.render_data demoNffResult.scene

def demoNffRay : Ray :=
  Ray.new (PosVector.new 0 0 5) (PosVector.new 0 0 (-1))

/-! The claims, settled. -/

/-- C3: for all colors `a` and `b` and every weight `w`, `blend(a, b, w)`
equals `a·(1−w) + b·(1−w)` componentwise — the baseline's asymmetric
formula in which both operands are scaled by `1−w` — and this differs from
the conventional lerp `a·(1−w) + b·w` (witnessed at `a = 0`, `b = 1`,
`w = 0`). -/
theorem blend_scales_both_operands :
    (∀ (a b : ColorVector) (w : ℚ),
        a.blend b w =
          ColorVector.new (a.r * (1 - w) + b.r * (1 - w))
            (a.g * (1 - w) + b.g * (1 - w)) (a.b * (1 - w) + b.b * (1 - w))) ∧
    ColorVector.blend (ColorVector.new 0 0 0) (ColorVector.new 1 1 1) 0 ≠
      blendConventionalLerp (ColorVector.new 0 0 0) (ColorVector.new 1 1 1) 0 := by
  constructor
  · intro a b w
    simp [ColorVector.blend, ColorVector.multiply_by_scalar, ColorVector.add,
      ColorVector.new]
  · norm_num [ColorVector.blend, blendConventionalLerp, ColorVector.multiply_by_scalar,
      ColorVector.add, ColorVector.new]

/-- Closed instance of C3's statement at `a = (1,0,0)`, `b = (0,1,0)`,
`w = 1/2`, obtained by applying the main theorem. -/
theorem blend_scales_both_operands_witness :
    ColorVector.blend (ColorVector.new 1 0 0) (ColorVector.new 0 1 0) (1/2) =
      ColorVector.new (1 * (1 - 1/2) + 0 * (1 - 1/2)) (0 * (1 - 1/2) + 1 * (1 - 1/2))
        (0 * (1 - 1/2) + 0 * (1 - 1/2)) :=
  blend_scales_both_operands.1 (ColorVector.new 1 0 0) (ColorVector.new 0 1 0) (1/2)

/-- C9: `render_highlights` returns the accumulated color unchanged for every
input — the gloss weight it multiplies the light color by is the hardcoded
zero of the source, so the specular term never contributes, even when
highlights are enabled, the shadow ray missed and the gloss is positive. -/
theorem render_highlights_returns_color_unchanged :
    ∀ (F : FloatOps) (rt : RayTracer) (current_color : ColorVector)
      (elem : CompiledShape) (shadow_intersection : IntersectionInfo)
      (light : CompiledLight),
      RayTracer.render_highlights F rt current_color elem shadow_intersection light =
        current_color := by
  intro F rt c elem sh light
  cases c
  unfold RayTracer.render_highlights
  split
  · simp [ColorVector.add, ColorVector.multiply_by_scalar]
  · rfl

/-- C1 fails on the code: `IntersectionInfo::new` (used by every shape's hit
branch) hardcodes `element_id: 0`, so a reported hit never carries the hit
shape's id.  Concrete evaluation: the sphere with id 1 centered at the
origin, hit by the ray from (0,0,2) toward −z, reports a hit whose
`element_id` is 0, not 1. -/
theorem sphere_intersect_hit_reports_element_id_zero :
    (demoSphere.intersect idOps demoRayDown).is_hit = true ∧
    (demoSphere.intersect idOps demoRayDown).element_id = 0 ∧
    demoSphere.id = 1 := by
  norm_num [SphereShape.intersect, idOps, demoSphere, demoRayDown, demoMaterialRed,
    Ray.new, Ray.get_position, Ray.get_direction, PosVector.new, PosVector.subtract,
    PosVector.dot_product, PosVector.add, PosVector.multiply_by_scalar,
    PosVector.normalize, PosVector.divide_by_scalar, PosVector.magnitude,
    PosVector.magnitude_squared, IntersectionInfo.new, SolidMaterial.new,
    SolidMaterial.toMaterial, ColorVector.new]

/-- Every sphere hit result carries `element_id = 0`, whatever the sphere's
actual id: the id is dropped by `IntersectionInfo::new`. -/
theorem sphere_intersect_element_id_always_zero (F : FloatOps) (s : SphereShape)
    (ray : Ray) : (s.intersect F ray).element_id = 0 := by
  simp only [SphereShape.intersect]
  split <;> rfl

/-- C10 fails on the code: `SphereShape::calculate_bounding_planes` passes
`cd + radius` as the bound's `min` and `cd − radius` as its `max` (swapped),
so for the unit sphere at the origin the x-axis bound is `min = 1 > max = −1`
and the bounding box built by `from_shape` is not well-formed. -/
theorem sphere_bounding_box_is_inverted :
    (demoSphere.calculate_bounding_planes PosVector.new_unit_x).min = 1 ∧
    (demoSphere.calculate_bounding_planes PosVector.new_unit_x).max = -1 ∧
    ¬ (BoundingBox.from_shape demoSphere.calculate_bounding_planes).is_well_formed := by
  norm_num [SphereShape.calculate_bounding_planes, Bound.new, BoundingBox.from_shape,
    BoundingBox.new, BoundingBox.is_well_formed, demoSphere, PosVector.new_unit_x,
    PosVector.new_unit_y, PosVector.new_unit_z, PosVector.new, PosVector.dot_product]

/-- C4: for every sphere and ray, with `b = dot(O−C, D)` and
`c = |O−C|² − r²`: if the discriminant `b² − c` is ≤ 0 the intersect
reports no hit; otherwise it reports exactly one hit at distance
`−b − √(b² − c)` (the near root only), with hit position `O + D·distance`
and normal `normalize(hitPos − C)`. -/
theorem sphere_intersect_near_root (F : FloatOps) (s : SphereShape) (ray : Ray) :
    (sphere_quadratic_b s ray * sphere_quadratic_b s ray - sphere_quadratic_c s ray ≤ 0 →
      s.intersect F ray = IntersectionInfo.new_default) ∧
    (0 < sphere_quadratic_b s ray * sphere_quadratic_b s ray - sphere_quadratic_c s ray →
      (s.intersect F ray).is_hit = true ∧
      (s.intersect F ray).distance =
        -sphere_quadratic_b s ray -
          F.sqrt (sphere_quadratic_b s ray * sphere_quadratic_b s ray -
            sphere_quadratic_c s ray) ∧
      (s.intersect F ray).position =
        ray.get_position.add
          (ray.get_direction.multiply_by_scalar ((s.intersect F ray).distance)) ∧
      (s.intersect F ray).normal =
        ((s.intersect F ray).position.subtract s.position).normalize F) := by
  simp only [SphereShape.intersect, sphere_quadratic_b, sphere_quadratic_c]
  split
  case isTrue hd =>
    refine ⟨fun hle => absurd hd (not_lt.mpr hle), fun _ => ?_⟩
    simp [IntersectionInfo.new]
  case isFalse hd =>
    exact ⟨fun _ => rfl, fun h0 => absurd h0 hd⟩

/-- Closed instance of C4 obtained by applying the main theorem at two
concrete rays at the unit sphere: one with positive discriminant (hit at the
near root) and one with nonpositive discriminant (no hit). -/
theorem sphere_intersect_near_root_witness :
    (0 < sphere_quadratic_b demoSphere demoRayDown * sphere_quadratic_b demoSphere demoRayDown -
        sphere_quadratic_c demoSphere demoRayDown ∧
      (demoSphere.intersect idOps demoRayDown).distance =
        -sphere_quadratic_b demoSphere demoRayDown -
          idOps.sqrt (sphere_quadratic_b demoSphere demoRayDown *
            sphere_quadratic_b demoSphere demoRayDown -
              sphere_quadratic_c demoSphere demoRayDown)) ∧
    (sphere_quadratic_b demoSphere demoRaySide * sphere_quadratic_b demoSphere demoRaySide -
        sphere_quadratic_c demoSphere demoRaySide ≤ 0 ∧
      demoSphere.intersect idOps demoRaySide = IntersectionInfo.new_default) := by
  have hdown : 0 < sphere_quadratic_b demoSphere demoRayDown *
      sphere_quadratic_b demoSphere demoRayDown - sphere_quadratic_c demoSphere demoRayDown := by
    norm_num [sphere_quadratic_b, sphere_quadratic_c, demoSphere, demoRayDown,
      Ray.new, Ray.get_position, Ray.get_direction, PosVector.new, PosVector.subtract,
      PosVector.dot_product]
  have hside : sphere_quadratic_b demoSphere demoRaySide *
      sphere_quadratic_b demoSphere demoRaySide - sphere_quadratic_c demoSphere demoRaySide ≤ 0 := by
    norm_num [sphere_quadratic_b, sphere_quadratic_c, demoSphere, demoRaySide,
      Ray.new, Ray.get_position, Ray.get_direction, PosVector.new, PosVector.subtract,
      PosVector.dot_product]
  exact ⟨⟨hdown, ((sphere_intersect_near_root idOps demoSphere demoRayDown).2 hdown).2.1⟩,
    ⟨hside, (sphere_intersect_near_root idOps demoSphere demoRaySide).1 hside⟩⟩

/-- C5: for every plane and ray, intersect reports no hit whenever
`vd = dot(n, D) ≥ 0` (in particular whenever the dot product is 0) and
whenever `t = −(dot(n, O) + d) / vd ≤ 0`; in all other cases it reports a
hit at distance `t`. -/
theorem plane_intersect_no_hit_cases (F : FloatOps) (p : PlaneShape) (ray : Ray) :
    (plane_vd p ray ≥ 0 → p.intersect F ray = IntersectionInfo.new_default) ∧
    (plane_vd p ray < 0 → plane_t p ray ≤ 0 →
      p.intersect F ray = IntersectionInfo.new_default) ∧
    (plane_vd p ray < 0 → 0 < plane_t p ray →
      (p.intersect F ray).is_hit = true ∧
      (p.intersect F ray).distance = plane_t p ray) := by
  simp only [PlaneShape.intersect, plane_t, plane_vd]
  split
  case isTrue hvd =>
    exact ⟨fun _ => rfl, fun hlt => absurd hvd (not_le.mpr hlt),
      fun hlt => absurd hvd (not_le.mpr hlt)⟩
  case isFalse hvd =>
    split
    case isTrue ht =>
      exact ⟨fun hge => absurd hge hvd, fun _ _ => rfl,
        fun _ hpos => absurd ht (not_le.mpr hpos)⟩
    case isFalse ht =>
      refine ⟨fun hge => absurd hge hvd, fun _ hle => absurd hle ht, fun _ _ => ?_⟩
      simp [IntersectionInfo.new]

/-- Closed instance of C5 obtained by applying the main theorem at three
concrete rays against the plane z = 0: one receding (`vd ≥ 0`), one with a
nonpositive candidate distance, and one genuine hit at distance 5. -/
theorem plane_intersect_no_hit_cases_witness :
    (plane_vd demoPlane demoPlaneRayAway ≥ 0 ∧
      demoPlane.intersect idOps demoPlaneRayAway = IntersectionInfo.new_default) ∧
    (plane_vd demoPlane demoPlaneRayBehind < 0 ∧ plane_t demoPlane demoPlaneRayBehind ≤ 0 ∧
      demoPlane.intersect idOps demoPlaneRayBehind = IntersectionInfo.new_default) ∧
    (plane_vd demoPlane demoPlaneRayHit < 0 ∧ 0 < plane_t demoPlane demoPlaneRayHit ∧
      (demoPlane.intersect idOps demoPlaneRayHit).is_hit = true ∧
      (demoPlane.intersect idOps demoPlaneRayHit).distance = plane_t demoPlane demoPlaneRayHit) := by
  have haway : plane_vd demoPlane demoPlaneRayAway ≥ 0 := by
    norm_num [plane_vd, demoPlane, demoPlaneRayAway, Ray.new, Ray.get_direction,
      PosVector.new, PosVector.dot_product]
  have hbehind_vd : plane_vd demoPlane demoPlaneRayBehind < 0 := by
    norm_num [plane_vd, demoPlane, demoPlaneRayBehind, Ray.new, Ray.get_direction,
      PosVector.new, PosVector.dot_product]
  have hbehind_t : plane_t demoPlane demoPlaneRayBehind ≤ 0 := by
    norm_num [plane_t, plane_vd, demoPlane, demoPlaneRayBehind, Ray.new,
      Ray.get_direction, Ray.get_position, PosVector.new, PosVector.dot_product]
  have hhit_vd : plane_vd demoPlane demoPlaneRayHit < 0 := by
    norm_num [plane_vd, demoPlane, demoPlaneRayHit, Ray.new, Ray.get_direction,
      PosVector.new, PosVector.dot_product]
  have hhit_t : 0 < plane_t demoPlane demoPlaneRayHit := by
    norm_num [plane_t, plane_vd, demoPlane, demoPlaneRayHit, Ray.new,
      Ray.get_direction, Ray.get_position, PosVector.new, PosVector.dot_product]
  exact ⟨⟨haway, (plane_intersect_no_hit_cases idOps demoPlane demoPlaneRayAway).1 haway⟩,
    ⟨hbehind_vd, hbehind_t,
      (plane_intersect_no_hit_cases idOps demoPlane demoPlaneRayBehind).2.1 hbehind_vd hbehind_t⟩,
    ⟨hhit_vd, hhit_t,
      (plane_intersect_no_hit_cases idOps demoPlane demoPlaneRayHit).2.2 hhit_vd hhit_t⟩⟩

/-- Each scan step either keeps the running best or replaces it with the
intersection of an admissible shape strictly closer than the running best. -/
theorem scan_step_cases (ray : Ray) (ex : ℕ) (best : IntersectionInfo)
    (q : ℕ × CompiledShape) :
    RayTracer.scan_step ray ex best q = best ∨
    (scan_admissible ray ex q ∧ (q.2.intersect ray).distance < best.distance ∧
      RayTracer.scan_step ray ex best q = q.2.intersect ray) := by
  simp only [RayTracer.scan_step]
  split
  case isTrue hid =>
    split
    case isTrue hc => exact Or.inr ⟨⟨hc.1, hc.2.2, hid⟩, hc.2.1, rfl⟩
    case isFalse => exact Or.inl rfl
  case isFalse => exact Or.inl rfl

/-- An admissible shape strictly closer than the running best is selected. -/
theorem scan_step_select (ray : Ray) (ex : ℕ) (best : IntersectionInfo)
    (q : ℕ × CompiledShape) (hadm : scan_admissible ray ex q)
    (hlt : (q.2.intersect ray).distance < best.distance) :
    RayTracer.scan_step ray ex best q = q.2.intersect ray := by
  simp only [RayTracer.scan_step]
  rw [if_pos hadm.2.2, if_pos ⟨hadm.1, hlt, hadm.2.1⟩]

/-- The scan never increases the tracked best distance. -/
theorem scan_foldl_distance_le (ray : Ray) (ex : ℕ) :
    ∀ (l : List (ℕ × CompiledShape)) (best : IntersectionInfo),
      (l.foldl (RayTracer.scan_step ray ex) best).distance ≤ best.distance := by
  intro l
  induction l with
  | nil => intro best; exact le_refl _
  | cons q l ih =>
    intro best
    rw [List.foldl_cons]
    rcases scan_step_cases ray ex best q with h | ⟨_, hlt, h⟩
    · rw [h]; exact ih best
    · rw [h]; exact le_trans (ih _) (le_of_lt hlt)

/-- The scan result is at most the distance of every admissible shape. -/
theorem scan_foldl_min (ray : Ray) (ex : ℕ) :
    ∀ (l : List (ℕ × CompiledShape)) (best : IntersectionInfo)
      (p : ℕ × CompiledShape), p ∈ l → scan_admissible ray ex p →
      (l.foldl (RayTracer.scan_step ray ex) best).distance ≤
        (p.2.intersect ray).distance := by
  intro l
  induction l with
  | nil => intro best p hp _; exact absurd hp (List.not_mem_nil p)
  | cons q l ih =>
    intro best p hp hadm
    rw [List.foldl_cons]
    rcases List.mem_cons.mp hp with rfl | hmem
    · by_cases hlt : (p.2.intersect ray).distance < best.distance
      · rw [scan_step_select ray ex best p hadm hlt]
        exact scan_foldl_distance_le ray ex l _
      · rcases scan_step_cases ray ex best p with h | ⟨_, hlt2, _⟩
        · rw [h]
          exact le_trans (scan_foldl_distance_le ray ex l best) (not_lt.mp hlt)
        · exact absurd hlt2 hlt
    · exact ih _ p hmem hadm

/-- The scan result is the initial best or the intersection of some admissible
shape strictly closer than the initial best. -/
theorem scan_foldl_eq_or (ray : Ray) (ex : ℕ) :
    ∀ (l : List (ℕ × CompiledShape)) (best : IntersectionInfo),
      l.foldl (RayTracer.scan_step ray ex) best = best ∨
      ∃ p ∈ l, scan_admissible ray ex p ∧
        (p.2.intersect ray).distance < best.distance ∧
        l.foldl (RayTracer.scan_step ray ex) best = p.2.intersect ray := by
  intro l
  induction l with
  | nil => intro best; exact Or.inl rfl
  | cons q l ih =>
    intro best
    rw [List.foldl_cons]
    rcases scan_step_cases ray ex best q with h | ⟨hadm, hlt, h⟩
    · rw [h]
      rcases ih best with h2 | ⟨p, hp, hadm2, hlt2, h2⟩
      · exact Or.inl h2
      · exact Or.inr ⟨p, List.mem_cons_of_mem q hp, hadm2, hlt2, h2⟩
    · rw [h]
      rcases ih (q.2.intersect ray) with h2 | ⟨p, hp, hadm2, hlt2, h2⟩
      · exact Or.inr ⟨q, List.mem_cons_self q l, hadm, hlt, h2⟩
      · exact Or.inr ⟨p, List.mem_cons_of_mem q hp, hadm2, lt_trans hlt2 hlt, h2⟩

/-- Once the running best is a hit, the scan result is a hit. -/
theorem scan_foldl_hit_of_hit (ray : Ray) (ex : ℕ) :
    ∀ (l : List (ℕ × CompiledShape)) (best : IntersectionInfo),
      best.is_hit = true →
      (l.foldl (RayTracer.scan_step ray ex) best).is_hit = true := by
  intro l
  induction l with
  | nil => intro best h; exact h
  | cons q l ih =>
    intro best h
    rw [List.foldl_cons]
    rcases scan_step_cases ray ex best q with hs | ⟨hadm, _, hs⟩
    · rw [hs]; exact ih best h
    · rw [hs]; exact ih _ hadm.1

/-- If some shape of the list is admissible and closer than the initial best,
the scan result is a hit. -/
theorem scan_foldl_hit_of_exists (ray : Ray) (ex : ℕ) :
    ∀ (l : List (ℕ × CompiledShape)) (best : IntersectionInfo),
      (∃ p ∈ l, scan_admissible ray ex p ∧
        (p.2.intersect ray).distance < best.distance) →
      (l.foldl (RayTracer.scan_step ray ex) best).is_hit = true := by
  intro l
  induction l with
  | nil =>
    rintro best ⟨p, hp, _⟩
    exact absurd hp (List.not_mem_nil p)
  | cons q l ih =>
    rintro best ⟨p, hp, hadm, hlt⟩
    rw [List.foldl_cons]
    rcases List.mem_cons.mp hp with rfl | hmem
    · rw [scan_step_select ray ex best p hadm hlt]
      exact scan_foldl_hit_of_hit ray ex l _ hadm.1
    · rcases scan_step_cases ray ex best q with hs | ⟨hadmq, _, hs⟩
      · rw [hs]; exact ih best ⟨p, hmem, hadm, hlt⟩
      · rw [hs]; exact scan_foldl_hit_of_hit ray ex l _ hadmq.1

/-- If no shape of the list is admissible and closer than the initial best,
the scan keeps the initial best. -/
theorem scan_foldl_keep (ray : Ray) (ex : ℕ) :
    ∀ (l : List (ℕ × CompiledShape)) (best : IntersectionInfo),
      (∀ p ∈ l, ¬(scan_admissible ray ex p ∧
        (p.2.intersect ray).distance < best.distance)) →
      l.foldl (RayTracer.scan_step ray ex) best = best := by
  intro l
  induction l with
  | nil => intro best _; rfl
  | cons q l ih =>
    intro best h
    rw [List.foldl_cons]
    rcases scan_step_cases ray ex best q with hs | ⟨hadm, hlt, _⟩
    · rw [hs]
      exact ih best (fun p hp => h p (List.mem_cons_of_mem q hp))
    · exact absurd ⟨hadm, hlt⟩ (h q (List.mem_cons_self q l))

/-- The scan selection condition against the initial no-hit default is
admissibility plus the default distance bound. -/
theorem scan_qualifies_iff (ray : Ray) (ex : ℕ) (p : ℕ × CompiledShape) :
    scan_qualifies ray ex p ↔
      scan_admissible ray ex p ∧
        (p.2.intersect ray).distance < IntersectionInfo.new_default.distance := by
  unfold scan_qualifies scan_admissible
  tauto

/-- C2: for every ray and excludeId, `testIntersection`'s basic path performs
a linear scan over all shapes of the scene and returns the no-hit default
exactly when no shape qualifies under
`isHit && distance < bestDistance && distance ≥ 0 && id != excludeId`;
otherwise it returns the intersection of some qualifying shape of minimal
distance among all qualifying shapes. -/
theorem test_intersection_basic_scan_spec (rt : RayTracer) (ray : Ray) (ex : ℕ) :
    (rt.test_intersection_basic ray ex = IntersectionInfo.new_default ↔
      ∀ p ∈ rt.scene.shapes, ¬ scan_qualifies ray ex p) ∧
    ((∃ p ∈ rt.scene.shapes, scan_qualifies ray ex p) →
      (rt.test_intersection_basic ray ex).is_hit = true ∧
      (∃ p ∈ rt.scene.shapes, scan_qualifies ray ex p ∧
        rt.test_intersection_basic ray ex = p.2.intersect ray) ∧
      ∀ p ∈ rt.scene.shapes, scan_qualifies ray ex p →
        (rt.test_intersection_basic ray ex).distance ≤
          (p.2.intersect ray).distance) := by
  unfold RayTracer.test_intersection_basic
  constructor
  · constructor
    · intro heq p hp hq
      have hq' := (scan_qualifies_iff ray ex p).mp hq
      have hhit := scan_foldl_hit_of_exists ray ex rt.scene.shapes
        IntersectionInfo.new_default ⟨p, hp, hq'.1, hq'.2⟩
      rw [heq] at hhit
      exact absurd hhit (by decide)
    · intro hno
      refine scan_foldl_keep ray ex rt.scene.shapes IntersectionInfo.new_default ?_
      rintro p hp ⟨hadm, hlt⟩
      exact hno p hp ((scan_qualifies_iff ray ex p).mpr ⟨hadm, hlt⟩)
  · rintro ⟨p, hp, hq⟩
    have hq' := (scan_qualifies_iff ray ex p).mp hq
    have hhit := scan_foldl_hit_of_exists ray ex rt.scene.shapes
      IntersectionInfo.new_default ⟨p, hp, hq'.1, hq'.2⟩
    refine ⟨hhit, ?_, ?_⟩
    · rcases scan_foldl_eq_or ray ex rt.scene.shapes IntersectionInfo.new_default with
        h | ⟨q, hqm, hadm, hlt, h⟩
      · rw [h] at hhit
        exact absurd hhit (by decide)
      · exact ⟨q, hqm, (scan_qualifies_iff ray ex q).mpr ⟨hadm, hlt⟩, h⟩
    · intro p' hp' hq''
      exact scan_foldl_min ray ex rt.scene.shapes IntersectionInfo.new_default p' hp'
        ((scan_qualifies_iff ray ex p').mp hq'').1

/-- Closed instance of C2 obtained by applying the main theorem to a concrete
two-shape scene in which both shapes qualify. -/
theorem test_intersection_basic_scan_spec_witness :
    (∃ p ∈ demoScanRt.scene.shapes, scan_qualifies demoRayDown 0 p) ∧
    (demoScanRt.test_intersection_basic demoRayDown 0).is_hit = true :=
  ⟨by decide,
    ((test_intersection_basic_scan_spec demoScanRt demoRayDown 0).2 (by decide)).1⟩

/-- Folding the same list from the same start with pointwise-equal step
functions yields the same result. -/
theorem foldl_fun_congr {α β : Type} (f g : α → β → α) (l : List β) (a : α)
    (h : ∀ x y, f x y = g x y) : l.foldl f a = l.foldl g a := by
  induction l generalizing a with
  | nil => rfl
  | cons b l ih => rw [List.foldl_cons, List.foldl_cons, h, ih]

/-- The reflection term consults `recurse` only at depth + 1. -/
theorem render_reflection_congr (F : FloatOps) (rt : RayTracer)
    (r1 r2 : IntersectionInfo → Ray → ℕ → ColorVector) (color : ColorVector)
    (info : IntersectionInfo) (ray : Ray) (depth : ℕ)
    (h : ∀ i r, r1 i r (depth + 1) = r2 i r (depth + 1)) :
    RayTracer.render_reflection F rt r1 color info ray depth =
      RayTracer.render_reflection F rt r2 color info ray depth := by
  simp only [RayTracer.render_reflection, h]

/-- The refraction term consults `recurse` only at depth + 1. -/
theorem render_refraction_congr (F : FloatOps) (rt : RayTracer)
    (r1 r2 : IntersectionInfo → Ray → ℕ → ColorVector) (color : ColorVector)
    (info : IntersectionInfo) (ray : Ray) (depth : ℕ)
    (h : ∀ i r, r1 i r (depth + 1) = r2 i r (depth + 1)) :
    RayTracer.render_refraction F rt r1 color info ray depth =
      RayTracer.render_refraction F rt r2 color info ray depth := by
  simp only [RayTracer.render_refraction, h]

/-- The per-light step consults `recurse` only at depth + 1 and only when
the depth guard holds. -/
theorem ray_trace_light_step_congr (F : FloatOps) (rt : RayTracer)
    (r1 r2 : IntersectionInfo → Ray → ℕ → ColorVector)
    (info : IntersectionInfo) (ray : Ray) (depth : ℕ)
    (h : depth < rt.render_data.ray_trace_depth →
      ∀ i r, r1 i r (depth + 1) = r2 i r (depth + 1)) :
    ∀ (color : ColorVector) (light : ℕ × CompiledLight),
      RayTracer.ray_trace_light_step F rt r1 info ray depth color light =
        RayTracer.ray_trace_light_step F rt r2 info ray depth color light := by
  intro color light
  simp only [RayTracer.ray_trace_light_step]
  split
  case isTrue hd =>
    rw [render_reflection_congr F rt r1 r2 _ info ray depth (h hd),
      render_refraction_congr F rt r1 r2 _ info ray depth (h hd)]
  case isFalse => rfl

/-- The loop body of `ray_trace` consults `recurse` only at depth + 1 and
only under the depth guard. -/
theorem ray_trace_body_congr (F : FloatOps) (rt : RayTracer)
    (r1 r2 : IntersectionInfo → Ray → ℕ → ColorVector)
    (info : IntersectionInfo) (ray : Ray) (depth : ℕ)
    (h : depth < rt.render_data.ray_trace_depth →
      ∀ i r, r1 i r (depth + 1) = r2 i r (depth + 1)) :
    RayTracer.ray_trace_body F rt r1 info ray depth =
      RayTracer.ray_trace_body F rt r2 info ray depth := by
  simp only [RayTracer.ray_trace_body]
  exact foldl_fun_congr _ _ rt.scene.lights _
    (ray_trace_light_step_congr F rt r1 r2 info ray depth h)

/-- Any two fuel amounts covering the remaining depth budget give the same
result: the recursion of `ray_trace` is bounded strictly by the depth
parameter. -/
theorem rayTraceFuel_stable (F : FloatOps) (rt : RayTracer) :
    ∀ (f g : ℕ) (info : IntersectionInfo) (ray : Ray) (depth : ℕ),
      rt.render_data.ray_trace_depth ≤ depth + f →
      rt.render_data.ray_trace_depth ≤ depth + g →
      RayTracer.rayTraceFuel F rt f info ray depth =
        RayTracer.rayTraceFuel F rt g info ray depth := by
  intro f
  induction f with
  | zero =>
    intro g info ray depth hf hg
    have hd : rt.render_data.ray_trace_depth ≤ depth := by omega
    cases g with
    | zero => rfl
    | succ g' =>
      show RayTracer.ray_trace_body F rt (fun _ _ _ => rt.scene.background.color)
          info ray depth =
        RayTracer.ray_trace_body F rt (RayTracer.rayTraceFuel F rt g') info ray depth
      exact ray_trace_body_congr F rt _ _ info ray depth
        (fun hlt => absurd hd (by omega))
  | succ f' ih =>
    intro g info ray depth hf hg
    cases g with
    | zero =>
      have hd : rt.render_data.ray_trace_depth ≤ depth := by omega
      show RayTracer.ray_trace_body F rt (RayTracer.rayTraceFuel F rt f') info ray depth =
        RayTracer.ray_trace_body F rt (fun _ _ _ => rt.scene.background.color)
          info ray depth
      exact ray_trace_body_congr F rt _ _ info ray depth
        (fun hlt => absurd hd (by omega))
    | succ g' =>
      show RayTracer.ray_trace_body F rt (RayTracer.rayTraceFuel F rt f') info ray depth =
        RayTracer.ray_trace_body F rt (RayTracer.rayTraceFuel F rt g') info ray depth
      exact ray_trace_body_congr F rt _ _ info ray depth
        (fun _ i r => ih g' i r (depth + 1) (by omega) (by omega))

/-- C6: `ray_trace` terminates for every input — its recursion is bounded
strictly by the depth parameter.  Recursive shading calls occur only under
the guard `depth < ray_trace_depth` and always at `depth + 1`, so once the
fuel covers the remaining budget `ray_trace_depth − depth`, the result no
longer depends on the fuel: every sufficient fuel computes exactly
`ray_trace`, and there is no other recursion path and no
contribution-magnitude early exit. -/
theorem ray_trace_terminates_by_depth (F : FloatOps) (rt : RayTracer) (fuel : ℕ)
    (info : IntersectionInfo) (ray : Ray) (depth : ℕ)
    (h : rt.render_data.ray_trace_depth ≤ depth + fuel) :
    RayTracer.rayTraceFuel F rt fuel info ray depth =
      RayTracer.ray_trace F rt info ray depth := by
  unfold RayTracer.ray_trace
  exact rayTraceFuel_stable F rt fuel _ info ray depth h (by omega)

/-- Closed instance of C6 obtained by applying the main theorem on a concrete
tracer with depth budget 1 and surplus fuel 3. -/
theorem ray_trace_terminates_by_depth_witness :
    demoEmptyRt.render_data.ray_trace_depth ≤ 0 + 3 ∧
    RayTracer.rayTraceFuel idOps demoEmptyRt 3 IntersectionInfo.new_default demoRayDown 0 =
      RayTracer.ray_trace idOps demoEmptyRt IntersectionInfo.new_default demoRayDown 0 :=
  ⟨by decide,
    ray_trace_terminates_by_depth idOps demoEmptyRt 3 IntersectionInfo.new_default
      demoRayDown 0 (by decide)⟩

/-- C7: for a scene containing zero shapes, `get_pixel_color` returns exactly
the scene's background color for every pixel: `calculate_color` calls
`test_intersection(ray, 0)`, which reports no hit over an empty shape list,
and the no-hit branch returns the background color. -/
theorem empty_scene_pixel_is_background (F : FloatOps) (rt : RayTracer) (x y : ℕ)
    (h : rt.scene.shapes = []) :
    RayTracer.get_pixel_color F rt x y = rt.scene.background.color := by
  have hti : ∀ (ray : Ray), rt.test_intersection ray 0 = IntersectionInfo.new_default := by
    intro ray
    unfold RayTracer.test_intersection RayTracer.test_intersection_kd
      RayTracer.test_intersection_basic
    rw [h]
    split <;> rfl
  simp only [RayTracer.get_pixel_color, RayTracer.calculate_color]
  rw [hti]
  rw [if_neg (by decide : ¬(IntersectionInfo.new_default.is_hit = true))]

/-- Closed instance of C7 obtained by applying the main theorem to a concrete
empty scene at pixel (5,5). -/
theorem empty_scene_pixel_is_background_witness :
    demoEmptyRt.scene.shapes = [] ∧
    RayTracer.get_pixel_color idOps demoEmptyRt 5 5 = demoEmptyRt.scene.background.color :=
  ⟨rfl, empty_scene_pixel_is_background idOps demoEmptyRt 5 5 rfl⟩

/-- Invariant of the `parse_nff_file` loop: every processed sphere appends
one shape carrying the then-current id, and the id counter advances by one
per sphere, so the shapes accumulate the consecutive ids starting at the
state's counter. -/
theorem parse_nff_ids (instrs : List NffInstr) :
    ∀ (st : NffState),
      ((instrs.foldl parse_nff_step st).shapes.map ShapeItem.get_id =
        st.shapes.map ShapeItem.get_id ++
          List.range' st.current_shape_id (instrs.countP NffInstr.isSphere)) ∧
      (instrs.foldl parse_nff_step st).current_shape_id =
        st.current_shape_id + instrs.countP NffInstr.isSphere := by
  induction instrs with
  | nil => intro st; simp
  | cons i instrs ih =>
    intro st
    rw [List.foldl_cons]
    cases i with
    | sphereInstr pos radius =>
      have h := ih (parse_nff_step st (NffInstr.sphereInstr pos radius))
      constructor
      · rw [h.1]
        simp only [parse_nff_step, List.countP_cons, NffInstr.isSphere,
          List.map_append, List.map_cons, List.map_nil, ShapeItem.get_id,
          List.range'_succ]
        rw [List.append_assoc]
        norm_num [List.range'_succ]
      · rw [h.2]
        have hstep :
            (parse_nff_step st (NffInstr.sphereInstr pos radius)).current_shape_id =
              st.current_shape_id + 1 := rfl
        have hcount :
            (NffInstr.sphereInstr pos radius :: instrs).countP NffInstr.isSphere =
              instrs.countP NffInstr.isSphere + 1 := by
          simp [List.countP_cons, NffInstr.isSphere]
        rw [hstep, hcount]
        omega
    | backgroundInstr r g b =>
      have h := ih (parse_nff_step st (NffInstr.backgroundInstr r g b))
      simpa [parse_nff_step, List.countP_cons, NffInstr.isSphere] using h
    | viewpoint cam_from cam_at cam_up angle hither rx ry =>
      have h := ih (parse_nff_step st (NffInstr.viewpoint cam_from cam_at cam_up angle hither rx ry))
      simpa [parse_nff_step, List.countP_cons, NffInstr.isSphere] using h
    | lightInstr position color =>
      have h := ih (parse_nff_step st (NffInstr.lightInstr position color))
      simpa [parse_nff_step, List.countP_cons, NffInstr.isSphere] using h
    | materialInstr r g b kd ks shine t ior =>
      have h := ih (parse_nff_step st (NffInstr.materialInstr r g b kd ks shine t ior))
      simpa [parse_nff_step, List.countP_cons, NffInstr.isSphere] using h
    | cone =>
      have h := ih (parse_nff_step st NffInstr.cone)
      simpa [parse_nff_step, List.countP_cons, NffInstr.isSphere] using h
    | polygon n =>
      have h := ih (parse_nff_step st (NffInstr.polygon n))
      simpa [parse_nff_step, List.countP_cons, NffInstr.isSphere] using h
    | polygonPatch =>
      have h := ih (parse_nff_step st NffInstr.polygonPatch)
      simpa [parse_nff_step, List.countP_cons, NffInstr.isSphere] using h
    | commentInstr =>
      have h := ih (parse_nff_step st NffInstr.commentInstr)
      simpa [parse_nff_step, List.countP_cons, NffInstr.isSphere] using h

/-- C8 amended: in every scene produced by the NFF parser, the shape ids are
0 followed by the sequential ids 1..n of the parsed spheres in insertion
order — the parser first inserts a hardcoded bottom plane with id 0, so id 0
does match a shape and the primary-ray call `testIntersection(ray, 0)`
excludes that plane from the intersection search. -/
theorem nff_shape_ids_zero_then_sequential (F : FloatOps)
    (num_threads ray_trace_depth : ℕ) (instrs : List NffInstr) :
    (parse_nff_file F num_threads ray_trace_depth instrs).scene.shapes.map Prod.fst =
      0 :: List.range' 1 (instrs.countP NffInstr.isSphere) := by
  simp only [parse_nff_file, List.map_map]
  have h := (parse_nff_ids instrs nff_initial_state).1
  have hcomp :
      (Prod.fst ∘ fun item : ShapeItem => (item.get_id, item.toCompiled F)) =
        ShapeItem.get_id := rfl
  rw [hcomp, h]
  rfl

/-- C8 fails on the code as claimed: parsing one sphere yields shape ids
[0, 1] — the hardcoded bottom plane carries id 0, not ids starting at 1 —
and the primary-ray exclusion id 0 does exclude a shape: a ray that the
id-0 plane would intercept (at distance 5) reports no hit when scanned with
excludeId 0, yet reports a hit when scanned with an id (7) matching no
shape. -/
theorem nff_id_zero_shape_is_excluded :
    demoNffResult.scene.shapes.map Prod.fst = [0, 1] ∧
    (RayTracer.test_intersection_basic demoNffRt demoNffRay 0).is_hit = false ∧
    (RayTracer.test_intersection_basic demoNffRt demoNffRay 7).is_hit = true := by
  refine ⟨rfl, ?_, ?_⟩ <;>
    norm_num [RayTracer.test_intersection_basic, RayTracer.scan_step, demoNffRt,
      demoNffResult, demoNffRay, demoNffInstrs, parse_nff_file, parse_nff_step,
      nff_initial_state, nff_chess_mat, ShapeItem.toCompiled, ShapeItem.get_id,
      CompiledShape.get_id, SphereShape.intersect, PlaneShape.intersect,
      RayTracer.new, idOps, IntersectionInfo.new, IntersectionInfo.new_default,
      Ray.new, Ray.get_position, Ray.get_direction, PosVector.new,
      PosVector.subtract, PosVector.dot_product, PosVector.add,
      PosVector.multiply_by_scalar, PosVector.normalize, PosVector.divide_by_scalar,
      PosVector.magnitude, PosVector.magnitude_squared, PosVector.cross,
      SolidMaterial.new, SolidMaterial.toMaterial, ChessboardMaterial.toMaterial,
      ChessboardMaterial.wrap_up_scale, fmod, qtrunc, ColorVector.new,
      PosVector.new_default]

end RustRay
